import Mathlib

/-!
Verification of the AKS-AI-Agent repository (src/app.py, src/utilities.py,
src/app_ui.py) against its natural-language specification.

The Python code is shallowly embedded: Python optional string values
(`None` or a `str`) become `Option String`, Python truthiness of strings
becomes `truthy`, the environment becomes an explicit `Env` record, the
process-global variable `kube_discovery_plugin` becomes a field of an
explicit `ProcState`, and the filesystem becomes an explicit `FS` record.
Side effects (plugin construction, subprocess entry, directory creation,
file writes) are recorded in explicit effect lists.  External SDK calls
(Azure OpenAI, semantic-kernel, the MCP subprocess) are out of scope of the
repository and modelled as succeeding at their interface boundary.
-/

namespace AKSAgent

/-- A Python string-or-None value, as passed for optional parameters and as
returned by `os.getenv` without a default. -/
abbrev PyStr := Option String

/-- Python truthiness of a string-or-None value: `None` and the empty string
are falsy, every non-empty string is truthy. -/
def truthy : PyStr → Bool
  | none => false
  | some s => !(s == "")

/-- Python `a or b` on string-or-None values: returns `a` when `a` is truthy,
otherwise `b`. -/
def pyOr (a b : PyStr) : PyStr := if truthy a then a else b

/-- `os.getenv(name, default)`: the default is used only when the variable is
absent; a variable set to the empty string is returned as the empty string. -/
def getenvD (v : PyStr) (d : String) : String :=
  match v with
  | none => d
  | some s => s

/-- The process environment variables read by `src/app.py`. -/
structure Env where
  azure_openai_deployment_name : PyStr
  azure_openai_endpoint : PyStr
  azure_openai_api_key : PyStr
  azure_openai_api_version : PyStr
  report_dir : PyStr
  deriving DecidableEq, Repr

/-- `REPORT_DIR = os.getenv("REPORT_DIR", "./ClusterReports/")` in `src/app.py`. -/
def Env.reportDir (env : Env) : String :=
  getenvD env.report_dir "./ClusterReports/"

/-- Mutable process-wide state of `src/app.py`: the module-global
`kube_discovery_plugin` reference (line 17, "Keep global reference alive")
and a counter supplying identities for freshly constructed adapter plugins. -/
structure ProcState where
  kube_discovery_plugin : Option Nat
  nextPluginId : Nat
  deriving DecidableEq, Repr

/-- Observable effects of `create_kubernetes_discovery_agent`:
construction of the `MCPStdioPlugin` object, entry of its subprocess
(`__aenter__`), assignment to the process-global variable, and — would the
code ever perform it — adapter teardown (`__aexit__`). -/
inductive CreateEffect where
  | mkPlugin (id : Nat)
  | enterPlugin (id : Nat)
  | setGlobal (id : Nat)
  | stopPlugin (id : Nat)
  deriving DecidableEq, Repr

/-- The default instruction prompt of `create_kubernetes_discovery_agent`. -/
def defaultInstructions : String :=
  "You are a Kubernetes discovery assistant that helps users explore and assess their Kubernetes clusters. You can discover namespaces, pods, services, deployments, and generate detailed cluster reports."

/-- The `ValueError` message raised when endpoint or API key is missing. -/
def configErrorMsg : String :=
  "Azure OpenAI endpoint and API key must be provided either as parameters or environment variables"

/-- The `ChatCompletionAgent` value returned on success, with the
configuration it was built from and the identity of the adapter plugin
registered in its kernel. -/
structure Agent where
  instructions : String
  deployment_name : String
  endpoint : String
  api_key : String
  api_version : String
  pluginId : Nat
  deriving DecidableEq, Repr

/-- Embedding of `create_kubernetes_discovery_agent` (src/app.py, lines
37-95): each optional argument falls back through Python `or` to the
corresponding environment variable; if the resolved endpoint or API key is
falsy a `ValueError` is raised before any plugin is constructed; otherwise a
fresh `MCPStdioPlugin` is constructed, entered, stored in the process
global, and registered in the returned agent. -/
def create_kubernetes_discovery_agent
    (instructions deployment_name endpoint api_key : PyStr)
    (env : Env) (st : ProcState) :
    Except String Agent × ProcState × List CreateEffect :=
  let dn := pyOr deployment_name
    (some (getenvD env.azure_openai_deployment_name "gpt-4o-standard"))
  let ep := pyOr endpoint env.azure_openai_endpoint
  let ak := pyOr api_key env.azure_openai_api_key
  let av := getenvD env.azure_openai_api_version "2024-02-01"
  if !truthy ep || !truthy ak then
    (.error configErrorMsg, st, [])
  else
    let ins := pyOr instructions (some defaultInstructions)
    let pid := st.nextPluginId
    (.ok { instructions := ins.getD ""
           deployment_name := dn.getD ""
           endpoint := ep.getD ""
           api_key := ak.getD ""
           api_version := av
           pluginId := pid },
     { kube_discovery_plugin := some pid, nextPluginId := pid + 1 },
     [.mkPlugin pid, .enterPlugin pid, .setGlobal pid])

/-! ## Filesystem model and the report sink (src/utilities.py, ClusterReportPlugin) -/

/-- Explicit filesystem state: the set of existing directories and an
association of file paths to contents (at most one entry per path). -/
structure FS where
  dirs : List String
  files : List (String × String)
  deriving DecidableEq, Repr

/-- `os.makedirs(d, exist_ok=True)`: creates the directory when absent, no
error (and no change) when it already exists. -/
def FS.makedirs (fs : FS) (d : String) : FS :=
  if d ∈ fs.dirs then fs else { fs with dirs := d :: fs.dirs }

/-- Writing a file in mode `'w'`: any prior entry at the path is replaced by
the new content (truncate-and-write, not append). -/
def FS.setFile (fs : FS) (p c : String) : FS :=
  { fs with files := (p, c) :: fs.files.filter (fun e => decide (e.1 ≠ p)) }

/-- The content stored at a path, when a file exists there. -/
def FS.readFile (fs : FS) (p : String) : Option String :=
  (fs.files.find? (fun e => e.1 == p)).map (fun e => e.2)

/-- `os.path.join(dir, name)` for a relative `name`: inserts a separator
only when `dir` does not already end with one. -/
def osPathJoin (d name : String) : String :=
  if d = "" then name
  else if d.endsWith "/" then d ++ name else d ++ "/" ++ name

/-- Observable filesystem effects of the report sink. -/
inductive FsEffect where
  | makedirs (d : String)
  | openWrite (p : String)
  deriving DecidableEq, Repr

/-- Embedding of `write_to_file_md` (src/utilities.py, lines 6-20): opens
the file for writing and writes the content; an OS-level failure (modelled
as `osError = some e`) is caught, printed, and re-raised unchanged, so the
caller sees the original exception. -/
def write_to_file_md (osError : Option String) (file_path content : String)
    (fs : FS) : Except String FS :=
  match osError with
  | some e => .error e
  | none => .ok (fs.setFile file_path content)

/-- Embedding of `ClusterReportPlugin.generate_cluster_summary`
(src/app.py, lines 27-34): when `save_file` is set, ensures the report
directory exists, writes the summary to `REPORT_DIR/cluster_summary.md`
via `write_to_file_md`, and returns a confirmation string naming the path;
otherwise returns the summary unchanged.  `reportDir` is the resolved
`REPORT_DIR` value; `osError` models whether the underlying storage write
fails.  The second component records the filesystem operations performed. -/
def generate_cluster_summary (reportDir : String) (osError : Option String)
    (summary_markdown : String) (save_file : Bool) (fs : FS) :
    Except String (String × FS) × List FsEffect :=
  if save_file then
    let fs1 := fs.makedirs reportDir
    let file_path := osPathJoin reportDir "cluster_summary.md"
    match write_to_file_md osError file_path summary_markdown fs1 with
    | .error e => (.error e, [.makedirs reportDir, .openWrite file_path])
    | .ok fs2 =>
        (.ok ("Cluster summary document generated: `" ++ file_path ++ "`", fs2),
         [.makedirs reportDir, .openWrite file_path])
  else
    (.ok (summary_markdown, fs), [])

/-! ## Session host (src/app_ui.py) -/

/-- A streamed response object yielded by `agent.invoke`: it may lack a
`content` attribute, carry a flat `content`, or carry a nested
`content.content`; in each case the handler appends the `str()` of the
relevant attribute. -/
inductive Response where
  | plain (s : String)
  | withContent (s : String)
  | withNested (s : String)
  deriving DecidableEq, Repr

/-- The text `on_message` appends for one streamed response object. -/
def Response.textOf : Response → String
  | .plain s => s
  | .withContent s => s
  | .withNested s => s

/-- Outcome of one `agent.invoke` call as observed by the session host:
either the async generator completes after yielding the listed responses,
or it raises an exception after yielding a prefix of them. -/
inductive InvokeOutcome where
  | completes (rs : List Response)
  | raises (rs : List Response) (e : String)
  deriving DecidableEq, Repr

/-- Result of one `on_message` turn: the chat messages sent to the user,
any exception escaping the handler, and whether `agent.invoke` was
attempted. -/
structure TurnResult where
  sent : List String
  raised : Option String
  invoked : Bool
  deriving DecidableEq, Repr

/-- The fixed message sent when the session stores no agent. -/
def agentNotInitializedMsg : String :=
  "❌ Agent not initialized. Please refresh the page."

/-- The fixed message sent when the accumulated reply is empty. -/
def noResponseMsg : String :=
  "❌ No response received from the agent."

/-- Prefix of the message sent when an exception is caught. -/
def errorReplyMsg (e : String) : String :=
  "❌ Error processing your request: " ++ e

/-- The reply accumulation loop of `on_message`: `response_content`
starts empty and each yielded response's text is appended in order. -/
def accumulate (rs : List Response) : String :=
  rs.foldl (fun acc r => acc ++ r.textOf) ""

/-- Embedding of the `on_message` handler (src/app_ui.py, lines 36-63):
when the session stores no agent, send a fixed notice and return without
invoking; otherwise iterate the invoke stream accumulating text, send the
accumulated reply when non-empty and a fixed no-response notice when empty;
any exception raised during the turn is caught and reported as an error
message, never re-raised. -/
def on_message (agent : Option Agent) (outcome : InvokeOutcome) : TurnResult :=
  match agent with
  | none =>
      { sent := [agentNotInitializedMsg], raised := none, invoked := false }
  | some _ =>
      match outcome with
      | .completes rs =>
          let rc := accumulate rs
          if rc ≠ "" then { sent := [rc], raised := none, invoked := true }
          else { sent := [noResponseMsg], raised := none, invoked := true }
      | .raises _ e =>
          { sent := [errorReplyMsg e], raised := none, invoked := true }

/-- Embedding of the `start` handler (src/app_ui.py, lines 4-34): creates
the agent from environment variables only and stores it in the session;
returns the stored agent (when creation succeeded), the new process state,
and the effects performed. -/
def on_chat_start (env : Env) (st : ProcState) :
    Option Agent × ProcState × List CreateEffect :=
  match create_kubernetes_discovery_agent none none none none env st with
  | (.ok a, st1, effs) => (some a, st1, effs)
  | (.error _, st1, effs) => (none, st1, effs)

/-- The adapter-related effect trace of one whole session as implemented
by src/app_ui.py: the `start` handler's creation effects, followed by the
message turns (which perform no adapter lifecycle operations), followed by
session close — for which the source registers no handler, so closing
contributes no effects.  In particular no `stopPlugin` effect is ever
produced anywhere in the repository. -/
def sessionLifecycleTrace (env : Env) (st : ProcState)
    (turns : List InvokeOutcome) : List CreateEffect :=
  (on_chat_start env st).2.2 ++ (turns.map (fun _ => ([] : List CreateEffect))).flatten ++ []

/-! ## Concrete fixtures and helper lemmas -/

/-- An environment with both required variables set, for concrete runs. -/
def envValid : Env :=
  { azure_openai_deployment_name := none
    azure_openai_endpoint := some "https://example.openai.azure.com"
    azure_openai_api_key := some "k123"
    azure_openai_api_version := none
    report_dir := none }

/-- An environment missing the API key, for concrete failure runs. -/
def envNoKey : Env :=
  { azure_openai_deployment_name := none
    azure_openai_endpoint := some "https://example.openai.azure.com"
    azure_openai_api_key := none
    azure_openai_api_version := none
    report_dir := none }

/-- The initial process state of `src/app.py` after module load. -/
def st0 : ProcState := { kube_discovery_plugin := none, nextPluginId := 0 }

/-- A sample agent value for concrete session runs. -/
def sampleAgent : Agent :=
  { instructions := defaultInstructions
    deployment_name := "gpt-4o-standard"
    endpoint := "https://example.openai.azure.com"
    api_key := "k123"
    api_version := "2024-02-01"
    pluginId := 0 }

theorem FS.mem_dirs_makedirs (fs : FS) (d : String) : d ∈ (fs.makedirs d).dirs := by
  unfold FS.makedirs
  by_cases h : d ∈ fs.dirs <;> simp [h]

theorem FS.makedirs_of_mem (fs : FS) (d : String) (h : d ∈ fs.dirs) :
    fs.makedirs d = fs := by
  simp [FS.makedirs, h]

theorem FS.readFile_setFile (fs : FS) (p c : String) :
    (fs.setFile p c).readFile p = some c := by
  simp [FS.readFile, FS.setFile]

theorem FS.filter_setFile (fs : FS) (p c : String) :
    ((fs.setFile p c).files.filter (fun x => x.1 == p)) = [(p, c)] := by
  simp only [FS.setFile, List.filter_cons]
  rw [List.filter_filter]
  simp only [beq_self_eq_true, if_pos]
  rw [List.filter_eq_nil_iff.mpr]
  intro a _
  by_cases h : a.1 = p <;> simp [h]

theorem FS.dirs_setFile (fs : FS) (p c : String) :
    (fs.setFile p c).dirs = fs.dirs := rfl

theorem FS.setFile_setFile (fs : FS) (p c1 c2 : String) :
    (fs.setFile p c1).setFile p c2 = fs.setFile p c2 := by
  simp [FS.setFile, List.filter_filter, Bool.and_self]

/-! ## Claim theorems -/

/-- CLAIM C1: `create_kubernetes_discovery_agent` succeeds exactly when both
the endpoint and the API key resolve (explicit argument, falling back to the
environment) to a non-empty value; otherwise the whole call returns the
`ValueError` with the configuration message, leaves the process state
untouched, and performs no adapter effect at all — in particular the MCP
plugin is neither constructed nor entered. -/
theorem create_succeeds_iff_nonempty_config
    (i d e a : PyStr) (env : Env) (st : ProcState) :
    ((create_kubernetes_discovery_agent i d e a env st).1.isOk
        = (truthy (pyOr e env.azure_openai_endpoint)
            && truthy (pyOr a env.azure_openai_api_key)))
    ∧ ((truthy (pyOr e env.azure_openai_endpoint)
          && truthy (pyOr a env.azure_openai_api_key)) = false →
        create_kubernetes_discovery_agent i d e a env st
          = (.error configErrorMsg, st, [])) := by
  cases he : truthy (pyOr e env.azure_openai_endpoint) <;>
    cases ha : truthy (pyOr a env.azure_openai_api_key) <;>
      simp [create_kubernetes_discovery_agent, he, ha, Except.isOk, Except.toBool]

/-- Witness for C1 at a concrete configuration missing the API key: the
call fails with the configuration error, the state is unchanged and no
adapter effect happens. -/
theorem create_succeeds_iff_nonempty_config_witness :
    create_kubernetes_discovery_agent none none none none envNoKey st0
      = (.error configErrorMsg, st0, []) :=
  (create_succeeds_iff_nonempty_config none none none none envNoKey st0).2 (by decide)

/-- CLAIM C2: with `save_file = false`, `generate_cluster_summary` returns
its input unchanged, leaves the filesystem untouched and performs no
filesystem operation (empty effect list, regardless of whether the
underlying storage would fail). -/
theorem generate_no_persist_is_pure
    (reportDir : String) (osError : Option String) (content : String) (fs : FS) :
    generate_cluster_summary reportDir osError content false fs
      = (.ok (content, fs), []) := rfl

/-- CLAIM C3: with `save_file = true` and a working storage layer,
`generate_cluster_summary` ensures the report directory exists (creating it
only when absent), writes the content to the fixed path
`REPORT_DIR/cluster_summary.md` replacing any prior content, and returns a
confirmation string naming that path; after each call exactly one file
entry exists at that path, and a second call with different content leaves
only the second content. -/
theorem generate_persist_overwrites
    (rd c1 c2 : String) (fs : FS) :
    (generate_cluster_summary rd none c1 true fs).1
        = .ok ("Cluster summary document generated: `"
                ++ osPathJoin rd "cluster_summary.md" ++ "`",
               (fs.makedirs rd).setFile (osPathJoin rd "cluster_summary.md") c1)
    ∧ (generate_cluster_summary rd none c2 true
          ((fs.makedirs rd).setFile (osPathJoin rd "cluster_summary.md") c1)).1
        = .ok ("Cluster summary document generated: `"
                ++ osPathJoin rd "cluster_summary.md" ++ "`",
               (fs.makedirs rd).setFile (osPathJoin rd "cluster_summary.md") c2)
    ∧ rd ∈ ((fs.makedirs rd).setFile (osPathJoin rd "cluster_summary.md") c1).dirs
    ∧ (rd ∈ fs.dirs →
        ((fs.makedirs rd).setFile (osPathJoin rd "cluster_summary.md") c1).dirs
          = fs.dirs)
    ∧ ((fs.makedirs rd).setFile (osPathJoin rd "cluster_summary.md") c1).readFile
        (osPathJoin rd "cluster_summary.md") = some c1
    ∧ ((fs.makedirs rd).setFile (osPathJoin rd "cluster_summary.md") c2).readFile
        (osPathJoin rd "cluster_summary.md") = some c2
    ∧ ((fs.makedirs rd).setFile (osPathJoin rd "cluster_summary.md") c1).files.filter
        (fun x => x.1 == osPathJoin rd "cluster_summary.md")
        = [(osPathJoin rd "cluster_summary.md", c1)]
    ∧ ((fs.makedirs rd).setFile (osPathJoin rd "cluster_summary.md") c2).files.filter
        (fun x => x.1 == osPathJoin rd "cluster_summary.md")
        = [(osPathJoin rd "cluster_summary.md", c2)] := by
  set p := osPathJoin rd "cluster_summary.md" with hp
  refine ⟨rfl, ?_, ?_, ?_, ?_, ?_, ?_, ?_⟩
  · show (generate_cluster_summary rd none c2 true _).1 = _
    have hsecond :
        ((fs.makedirs rd).setFile p c1).makedirs rd = (fs.makedirs rd).setFile p c1 := by
      apply FS.makedirs_of_mem
      rw [FS.dirs_setFile]
      exact FS.mem_dirs_makedirs fs rd
    simp [generate_cluster_summary, write_to_file_md, hsecond,
      FS.setFile_setFile]
  · rw [FS.dirs_setFile]; exact FS.mem_dirs_makedirs fs rd
  · intro h; rw [FS.dirs_setFile, FS.makedirs_of_mem fs rd h]
  · exact FS.readFile_setFile _ p c1
  · exact FS.readFile_setFile _ p c2
  · exact FS.filter_setFile _ p c1
  · exact FS.filter_setFile _ p c2

/-- Witness for C3 at a concrete directory, contents and filesystem whose
report directory already exists (discharging the idempotence hypothesis). -/
theorem generate_persist_overwrites_witness :
    ((({ dirs := ["./r/"], files := [] } : FS).makedirs "./r/").setFile
        (osPathJoin "./r/" "cluster_summary.md") "a").dirs = ["./r/"] :=
  (generate_persist_overwrites "./r/" "a" "b"
      { dirs := ["./r/"], files := [] }).2.2.2.1 (by decide)

/-- CLAIM C8: when the underlying storage write fails,
`generate_cluster_summary` with `save_file = true` propagates the original
write exception (it does not silently succeed), and at the session layer
such an exception escaping a capability call is converted into a textual
error reply rather than an uncaught process-level error. -/
theorem write_failure_propagates
    (rd c e : String) (fs : FS) (ag : Agent) (rs : List Response) :
    (generate_cluster_summary rd (some e) c true fs).1 = .error e
    ∧ (on_message (some ag) (.raises rs e)).raised = none
    ∧ (on_message (some ag) (.raises rs e)).sent = [errorReplyMsg e] := by
  refine ⟨?_, rfl, rfl⟩
  simp [generate_cluster_summary, write_to_file_md]

/-- CLAIM C4 counterexample: the claim fails at the empty fragment stream —
the accumulated concatenation is the empty string, yet the session host
delivers the fixed no-response notice, which differs from the
concatenation.  (The code guards `if response_content:` and substitutes an
error notice when the accumulation is empty.) -/
theorem reply_concat_empty_stream_counterexample :
    accumulate [] = ""
    ∧ (on_message (some sampleAgent) (.completes [])).sent = [noResponseMsg]
    ∧ (on_message (some sampleAgent) (.completes [])).sent ≠ [accumulate []] := by
  refine ⟨rfl, rfl, ?_⟩
  decide

/-- CLAIM C4 (amended): whenever the concatenation of the streamed
fragments' text in arrival order is non-empty, the delivered reply is
exactly that concatenation; when it is empty, the fixed no-response notice
is delivered instead; in particular the stream `["Hello, ", "world!"]`
yields exactly `"Hello, world!"`. -/
theorem reply_is_concat_of_fragments (ag : Agent) (rs : List Response) :
    (accumulate rs ≠ "" →
      (on_message (some ag) (.completes rs)).sent = [accumulate rs])
    ∧ (accumulate rs = "" →
      (on_message (some ag) (.completes rs)).sent = [noResponseMsg])
    ∧ (on_message (some ag)
        (.completes [.withNested "Hello, ", .withNested "world!"])).sent
        = ["Hello, world!"] := by
  refine ⟨?_, ?_, ?_⟩
  · intro h; simp [on_message, h]
  · intro h; simp [on_message, h]
  · have : accumulate [Response.withNested "Hello, ", Response.withNested "world!"]
        = "Hello, world!" := rfl
    simp [on_message, this]

/-- Witness for C4 (amended) at a concrete non-empty stream. -/
theorem reply_is_concat_of_fragments_witness :
    (on_message (some sampleAgent)
      (.completes [Response.withContent "x"])).sent = ["x"] :=
  (reply_is_concat_of_fragments sampleAgent [Response.withContent "x"]).1 (by decide)

/-- CLAIM C5: whatever the outcome of the invoke stream — completion with
any fragments, or an exception raised at any point (capability failure,
subprocess error, write failure) — the message handler sends exactly one
textual reply and never lets the exception escape; a raised error is
reported back as a textual reply describing the failure, never as a
process-level fatal error. -/
theorem capability_failure_never_escapes
    (ag : Agent) (outcome : InvokeOutcome) (rs : List Response) (e : String) :
    (on_message (some ag) outcome).raised = none
    ∧ (on_message (some ag) outcome).sent.length = 1
    ∧ (on_message (some ag) (.raises rs e)).sent = [errorReplyMsg e]
    ∧ (on_message (some ag) (.raises rs e)).raised = none := by
  refine ⟨?_, ?_, rfl, rfl⟩ <;>
    cases outcome <;> simp [on_message] <;> split <;> simp

/-- CLAIM C9: when the session stores no agent, `on_message` sends exactly
the fixed not-initialized notice, does not attempt `invoke`, and raises
nothing (so the session is not terminated). -/
theorem no_agent_sends_fixed_notice (outcome : InvokeOutcome) :
    on_message none outcome
      = { sent := [agentNotInitializedMsg], raised := none, invoked := false } := rfl

/-- CLAIM C10: an explicit empty-string argument for the endpoint or the
API key behaves exactly like an absent argument — the whole call is equal
to the call with that argument omitted — so with non-empty process
configuration the call still succeeds using the configured values, and
empty-string arguments cannot force a configuration error while the
configuration is set. -/
theorem empty_string_arg_falls_back
    (i d e a : PyStr) (env : Env) (st : ProcState) :
    create_kubernetes_discovery_agent i d (some "") a env st
        = create_kubernetes_discovery_agent i d none a env st
    ∧ create_kubernetes_discovery_agent i d e (some "") env st
        = create_kubernetes_discovery_agent i d e none env st
    ∧ (truthy env.azure_openai_endpoint = true →
       truthy env.azure_openai_api_key = true →
        (create_kubernetes_discovery_agent i d (some "") (some "") env st).1.isOk
          = true) := by
  refine ⟨rfl, rfl, ?_⟩
  intro he ha
  have h0 : truthy (some "") = false := by decide
  simp [create_kubernetes_discovery_agent, pyOr, h0, he, ha,
    Except.isOk, Except.toBool]

/-- Witness for C10 at a concrete, fully configured environment. -/
theorem empty_string_arg_falls_back_witness :
    (create_kubernetes_discovery_agent none none (some "") (some "")
        envValid st0).1.isOk = true :=
  (empty_string_arg_falls_back none none none none envValid st0).2.2
    (by decide) (by decide)

theorem create_effects_no_stop (i d e a : PyStr) (env : Env) (st : ProcState)
    (id : Nat) :
    CreateEffect.stopPlugin id ∉ (create_kubernetes_discovery_agent i d e a env st).2.2 := by
  by_cases hc : (!truthy (pyOr e env.azure_openai_endpoint)
      || !truthy (pyOr a env.azure_openai_api_key)) = true <;>
    simp [create_kubernetes_discovery_agent, hc]

theorem on_chat_start_effects (env : Env) (st : ProcState) :
    (on_chat_start env st).2.2
      = (create_kubernetes_discovery_agent none none none none env st).2.2 := by
  unfold on_chat_start
  rcases hc : create_kubernetes_discovery_agent none none none none env st with ⟨r, st1, effs⟩
  cases r <;> rfl

theorem create_ok_pluginId (i d e a : PyStr) (env : Env) (st : ProcState)
    (ag : Agent)
    (h : (create_kubernetes_discovery_agent i d e a env st).1 = .ok ag) :
    ag.pluginId = st.nextPluginId
    ∧ (create_kubernetes_discovery_agent i d e a env st).2.1.kube_discovery_plugin
        = some st.nextPluginId
    ∧ (create_kubernetes_discovery_agent i d e a env st).2.1.nextPluginId
        = st.nextPluginId + 1 := by
  by_cases hc : (!truthy (pyOr e env.azure_openai_endpoint)
      || !truthy (pyOr a env.azure_openai_api_key)) = true
  · simp [create_kubernetes_discovery_agent, hc] at h
  · simp [create_kubernetes_discovery_agent, hc] at h ⊢
    rw [← h]

/-- CLAIM C6 counterexample: a full session lifecycle with valid
configuration (open, zero message turns, close) starts the adapter
subprocess (the `enterPlugin` effect for plugin 0 is in the trace) yet the
trace contains zero `stopPlugin` effects, not exactly one: the repository
registers no teardown anywhere. -/
theorem adapter_stop_count_counterexample :
    CreateEffect.enterPlugin 0 ∈ sessionLifecycleTrace envValid st0 []
    ∧ ((sessionLifecycleTrace envValid st0 []).filter
        (fun x => x == CreateEffect.stopPlugin 0)).length = 0 := by
  decide

/-- CLAIM C6 (amended): `stop` is never invoked on the adapter — every
session lifecycle trace the repository can produce (creation on chat
start, any number of message turns, session close with no registered
handler) contains no `stopPlugin` effect at all; the adapter handle is
instead kept alive in the process-global variable for the process
lifetime. -/
theorem adapter_stop_never_invoked (env : Env) (st : ProcState)
    (turns : List InvokeOutcome) (id : Nat) :
    CreateEffect.stopPlugin id ∉ sessionLifecycleTrace env st turns := by
  have hturns : ((turns.map (fun _ => ([] : List CreateEffect))).flatten) = [] := by
    induction turns with
    | nil => rfl
    | cons h t ih => simp [ih]
  have ht : sessionLifecycleTrace env st turns
      = (create_kubernetes_discovery_agent none none none none env st).2.2 := by
    unfold sessionLifecycleTrace
    rw [on_chat_start_effects, hturns]
    simp
  rw [ht]
  exact create_effects_no_stop none none none none env st id

/-- CLAIM C7 counterexample: two successive façade creations (two sessions)
in the same process, with valid configuration, both write the same
process-global adapter-handle variable `kube_discovery_plugin`: after the
first creation it holds adapter 0, after the second it holds adapter 1 —
so the adapter handle lives in cross-session shared *mutable* state, not
only in read-only process-wide configuration. -/
theorem global_handle_shared_counterexample :
    (create_kubernetes_discovery_agent none none none none envValid
        st0).2.1.kube_discovery_plugin = some 0
    ∧ (create_kubernetes_discovery_agent none none none none envValid
        (create_kubernetes_discovery_agent none none none none envValid
          st0).2.1).2.1.kube_discovery_plugin = some 1
    ∧ CreateEffect.setGlobal 0
        ∈ (create_kubernetes_discovery_agent none none none none envValid st0).2.2
    ∧ CreateEffect.setGlobal 1
        ∈ (create_kubernetes_discovery_agent none none none none envValid
            (create_kubernetes_discovery_agent none none none none envValid
              st0).2.1).2.2
    ∧ (some 1 : Option Nat) ≠ some 0 := by
  decide

/-- CLAIM C7 (amended): each façade's kernel references its own freshly
constructed adapter (two successful creations yield distinct adapter
identities, so per-session adapter ownership is exclusive), but the adapter
handle is additionally stored in the process-global mutable variable
`kube_discovery_plugin`, which every creation overwrites — cross-session
shared state therefore includes this mutable global handle, not only
read-only configuration. -/
theorem facade_adapters_distinct_global_mutable
    (env : Env) (st : ProcState) (a1 a2 : Agent)
    (h1 : (create_kubernetes_discovery_agent none none none none env st).1 = .ok a1)
    (h2 : (create_kubernetes_discovery_agent none none none none env
        (create_kubernetes_discovery_agent none none none none env st).2.1).1
          = .ok a2) :
    a1.pluginId ≠ a2.pluginId
    ∧ (create_kubernetes_discovery_agent none none none none env
        st).2.1.kube_discovery_plugin = some a1.pluginId
    ∧ (create_kubernetes_discovery_agent none none none none env
        (create_kubernetes_discovery_agent none none none none env
          st).2.1).2.1.kube_discovery_plugin = some a2.pluginId
    ∧ (create_kubernetes_discovery_agent none none none none env
        (create_kubernetes_discovery_agent none none none none env
          st).2.1).2.1.kube_discovery_plugin
      ≠ (create_kubernetes_discovery_agent none none none none env
          st).2.1.kube_discovery_plugin := by
  obtain ⟨hp1, hg1, hn1⟩ := create_ok_pluginId none none none none env st a1 h1
  obtain ⟨hp2, hg2, hn2⟩ :=
    create_ok_pluginId none none none none env
      (create_kubernetes_discovery_agent none none none none env st).2.1 a2 h2
  rw [hn1] at hp2 hg2
  refine ⟨?_, by rw [hg1, hp1], by rw [hg2, hp2], ?_⟩
  · rw [hp1, hp2]; omega
  · rw [hg1, hg2]
    simp only [ne_eq, Option.some.injEq]
    omega

/-- Witness for C7 (amended) at the concrete valid environment and the two
concretely computed agents of the first two sessions. -/
theorem facade_adapters_distinct_global_mutable_witness :
    sampleAgent.pluginId ≠ ({ sampleAgent with pluginId := 1 } : Agent).pluginId
    ∧ (create_kubernetes_discovery_agent none none none none envValid
        st0).2.1.kube_discovery_plugin = some sampleAgent.pluginId
    ∧ (create_kubernetes_discovery_agent none none none none envValid
        (create_kubernetes_discovery_agent none none none none envValid
          st0).2.1).2.1.kube_discovery_plugin
        = some ({ sampleAgent with pluginId := 1 } : Agent).pluginId
    ∧ (create_kubernetes_discovery_agent none none none none envValid
        (create_kubernetes_discovery_agent none none none none envValid
          st0).2.1).2.1.kube_discovery_plugin
      ≠ (create_kubernetes_discovery_agent none none none none envValid
          st0).2.1.kube_discovery_plugin :=
  facade_adapters_distinct_global_mutable envValid st0 sampleAgent
    { sampleAgent with pluginId := 1 } rfl rfl

end AKSAgent
